import Mathlib

/-!
Verification development for `tts_infer.py`, a command-line driver that
parses arguments, resolves a model configuration file, loads a vocoder and
a TTS model through an external library, runs inference and writes the
resulting audio to disk.

The script is embedded shallowly: external library calls are fields of an
`Env` record returning `Except PyError _`, the filesystem directory
structure is a predicate `FS`, and `main` is a function producing a trace
of the externally visible operations together with the final outcome.
-/

/-- Python exception values that can surface from the script or the
external library calls it makes. -/
inductive PyError where
  | importError
  | fileNotFoundError (msg : String)
  | fileExistsError (msg : String)
  | valueError (msg : String)
  | systemExit (code : Nat)
  | libraryError (msg : String)
deriving DecidableEq

/-! ## Module-level defaults (lines 22-44 of `tts_infer.py`) -/

def MODEL : String := "F5TTS_Base"

def VOCAB_FILE : String := "model/vocab.txt"

def CKPT_FILE : String := "model/model_500000.pt"

def VOCODER_NAME : String := "vocos"

def REF_AUDIO : String := "voice_samples/huong_giang_4.wav"

def REF_TEXT : String := "Bây giờ anh phải cho em một cái hẹn với chị chứ còn biết làm sao nữa à Em bảo rồi rõ ràng là quyền lợi của nhà mình này Đi cà phê thì em mời nước Mà anh chị cứ sợ như kiểu là em gặp anh chị để em ăn thịt Anh chị không bằng ý."

def GEN_TEXT : String := "Không biết căn hộ nhà mình ở Home City của anh chị có nhu cầu bán hoặc cho thuê không ạ?"

def SPEED : ℚ := 1.0

def OUTPUT_DIR : String := "outputs"

def OUTPUT_FILE : String := "synthesized_speech_huong_giang_4.wav"

def DEFAULT_NFE_STEP : ℤ := 32

def DEFAULT_CFG_STRENGTH : ℚ := 2.0

def DEFAULT_TARGET_RMS : ℚ := 0.1

def DEFAULT_CROSS_FADE_DURATION : ℚ := 0.15

def DEFAULT_SWAY_SAMPLING_COEF : ℚ := -1.0

/-- The parsed argument namespace produced by `parser.parse_args()`
(lines 52-70).  Float-typed arguments are modelled as rationals, the
int-typed `nfe_step` as an integer. -/
structure Args where
  model : String
  ref_audio : String
  ref_text : String
  gen_text : String
  speed : ℚ
  vocoder_name : String
  vocab_file : String
  ckpt_file : String
  output_file : String
  output_dir : String
  nfe_step : ℤ
  cfg_strength : ℚ
  target_rms : ℚ
  cross_fade_duration : ℚ
  sway_sampling_coef : ℚ
  remove_silence : Bool
deriving DecidableEq

/-- The argument namespace when every flag is omitted: each field carries
its module-level default (lines 52-70). -/
def defaultArgs : Args where
  model := MODEL
  ref_audio := REF_AUDIO
  ref_text := REF_TEXT
  gen_text := GEN_TEXT
  speed := SPEED
  vocoder_name := VOCODER_NAME
  vocab_file := VOCAB_FILE
  ckpt_file := CKPT_FILE
  output_file := OUTPUT_FILE
  output_dir := OUTPUT_DIR
  nfe_step := DEFAULT_NFE_STEP
  cfg_strength := DEFAULT_CFG_STRENGTH
  target_rms := DEFAULT_TARGET_RMS
  cross_fade_duration := DEFAULT_CROSS_FADE_DURATION
  sway_sampling_coef := DEFAULT_SWAY_SAMPLING_COEF
  remove_silence := false

/-- A well-typed command-line occurrence of one flag.  Values whose
argparse `type` conversion succeeded are carried already converted; the
string-valued `--vocoder_name` carries its raw value because its
`choices` check happens during parsing. -/
inductive CliToken where
  | model (v : String)
  | ref_audio (v : String)
  | ref_text (v : String)
  | gen_text (v : String)
  | speed (v : ℚ)
  | vocoder_name (v : String)
  | vocab_file (v : String)
  | ckpt_file (v : String)
  | output_file (v : String)
  | output_dir (v : String)
  | nfe_step (v : ℤ)
  | cfg_strength (v : ℚ)
  | target_rms (v : ℚ)
  | cross_fade_duration (v : ℚ)
  | sway_sampling_coef (v : ℚ)
  | remove_silence
deriving DecidableEq

/-- An argparse parse-time failure.  The only parse-time check modelled is
the `choices=["vocos", "bigvgan"]` restriction on `--vocoder_name`
(line 57); argparse reports it and exits with status 2. -/
inductive ParseError where
  | invalidChoice (flag : String) (v : String)
deriving DecidableEq

/-- Processing of a single flag occurrence: the `store` action overwrites
the destination field, `--remove_silence` is a `store_true` action
(line 70), and a `--vocoder_name` value outside its `choices` list is an
immediate parse error (line 57). -/
def applyTok (a : Args) : CliToken → Except ParseError Args
  | .model v => .ok { a with model := v }
  | .ref_audio v => .ok { a with ref_audio := v }
  | .ref_text v => .ok { a with ref_text := v }
  | .gen_text v => .ok { a with gen_text := v }
  | .speed v => .ok { a with speed := v }
  | .vocoder_name v =>
      if v = "vocos" ∨ v = "bigvgan" then .ok { a with vocoder_name := v }
      else .error (.invalidChoice "--vocoder_name" v)
  | .vocab_file v => .ok { a with vocab_file := v }
  | .ckpt_file v => .ok { a with ckpt_file := v }
  | .output_file v => .ok { a with output_file := v }
  | .output_dir v => .ok { a with output_dir := v }
  | .nfe_step v => .ok { a with nfe_step := v }
  | .cfg_strength v => .ok { a with cfg_strength := v }
  | .target_rms v => .ok { a with target_rms := v }
  | .cross_fade_duration v => .ok { a with cross_fade_duration := v }
  | .sway_sampling_coef v => .ok { a with sway_sampling_coef := v }
  | .remove_silence => .ok { a with remove_silence := true }

/-- Left-to-right processing of the command line; a later occurrence of a
flag overwrites an earlier one, matching argparse. -/
def parseTokens (a : Args) : List CliToken → Except ParseError Args
  | [] => .ok a
  | t :: ts =>
    match applyTok a t with
    | .ok a2 => parseTokens a2 ts
    | .error e => .error e

/-- Model of `parser.parse_args()` (line 72): start from the defaults and
fold the command line over them. -/
def parseArgs (argv : List CliToken) : Except ParseError Args :=
  parseTokens defaultArgs argv

/-! ## Filesystem directory model and `Path.mkdir` (lines 75-76) -/

/-- The set of directories that exist, as a Boolean predicate on POSIX
path strings. -/
def FS : Type := String → Bool

/-- Splitting a character list at every `'/'`. -/
def splitSlash : List Char → List (List Char)
  | [] => [[]]
  | c :: cs =>
    if c = '/' then [] :: splitSlash cs
    else
      match splitSlash cs with
      | [] => [[c]]
      | p :: ps => (c :: p) :: ps

/-- Joining path components back with `'/'`. -/
def joinSlash : List (List Char) → List Char
  | [] => []
  | [p] => p
  | p :: ps => p ++ '/' :: joinSlash ps

/-- All ancestor paths of `d`, including `d` itself: for `"a/b/c"` this
is `["a", "a/b", "a/b/c"]`. -/
def ancestors (d : String) : List String :=
  (List.range (splitSlash d.data).length).map
    (fun i => String.mk (joinSlash ((splitSlash d.data).take (i + 1))))

/-- The directory set after creating `d` together with every missing
ancestor. -/
def mkdirFS (fs : FS) (d : String) : FS :=
  fun q => decide (q ∈ ancestors d) || fs q

/-- The immediate parent directory of `d`, if `d` has one. -/
def parentOf (d : String) : Option String :=
  (ancestors d).dropLast.getLast?

/-- Model of `pathlib.Path.mkdir(parents=..., exist_ok=...)`: an existing
target raises `FileExistsError` unless `exist_ok` is set, a missing
parent raises `FileNotFoundError` unless `parents` is set, and otherwise
the directory and its missing ancestors are created. -/
def path_mkdir (fs : FS) (d : String) (parents exist_ok : Bool) :
    Except PyError FS :=
  if fs d && !exist_ok then .error (.fileExistsError d)
  else if !parents && !(match parentOf d with
                        | none => true
                        | some p => fs p) then
    .error (.fileNotFoundError d)
  else .ok (mkdirFS fs d)

/-! ## External library interface -/

/-- The `model` section of the loaded YAML configuration
(`OmegaConf.load(model_cfg_path).model`, line 95): the script reads its
`backbone` and `arch` fields; `arch` is opaque to the script and kept as
a string. -/
structure ModelCfg where
  backbone : String
  arch : String
deriving DecidableEq

/-- The full argument tuple of `infer_process` (lines 123-137).
`fix_duration` is passed as the constant `None`. -/
structure InferIn where
  ref_audio : String
  ref_text : String
  gen_text : String
  mel_spec_type : String
  target_rms : ℚ
  cross_fade_duration : ℚ
  nfe_step : ℤ
  cfg_strength : ℚ
  sway_sampling_coef : ℚ
  speed : ℚ
  fix_duration : Option ℚ
deriving DecidableEq

/-- The triple returned by `infer_process` (line 123): an audio buffer
(opaque, identified by a number), the final sample rate, and a
spectrogram (opaque). -/
structure InferOut where
  audio : Nat
  sample_rate : Nat
  spectrogram : Nat
deriving DecidableEq

/-- The externally owned operations the script calls, each a synchronous
call that either returns a value or raises a Python exception.  Field
names follow the imported library functions (lines 10-16), plus the
`importlib.resources` lookup, the `os.path.exists` check and the
`OmegaConf.load` call. -/
structure Env where
  load_vocoder : String → Except PyError Unit
  pkg_cfg_path : String → Except PyError String
  path_exists : String → Bool
  omegaconf_load : String → Except PyError ModelCfg
  load_model : String → String → String → String → String → Except PyError Unit
  preprocess_ref_audio_text : String → String → Except PyError (String × String)
  infer_process : InferIn → Except PyError InferOut
  sf_write : String → Nat → Nat → Except PyError Unit
  remove_silence_for_generated_wav : String → Except PyError Unit

/-- The externally visible operations of one run, in the order they are
performed.  Each event records the call with its arguments; an event is
emitted when the call is made, whether or not the call then raises. -/
inductive Event where
  | argsParsed (a : Args)
  | mkdirOutput (dir : String)
  | loadVocoderEvt (name : String)
  | resolveCfgEvt (path : String)
  | loadCfgEvt (path : String)
  | loadModelEvt (cls arch ckpt mel vocab : String)
  | preprocessEvt (refA refT : String)
  | inferEvt (inp : InferIn)
  | writeAudioEvt (path : String) (audio : Nat) (sr : Nat)
  | removeSilenceEvt (path : String)
deriving DecidableEq

/-- Whether a raised exception is caught by the
`except (ImportError, FileNotFoundError)` clause on line 88. -/
def caughtByCfgExcept : PyError → Bool
  | .importError => true
  | .fileNotFoundError _ => true
  | _ => false

/-- Model configuration path resolution (lines 84-93): consult the
installed `f5_tts` package first; on `ImportError` or
`FileNotFoundError` fall back to `configs/<model>.yaml` in the current
directory, and raise `FileNotFoundError` naming the model when that is
missing too. -/
def resolve_model_cfg_path (env : Env) (model : String) :
    Except PyError String :=
  match env.pkg_cfg_path ("configs/" ++ model ++ ".yaml") with
  | .ok p => .ok p
  | .error e =>
    if caughtByCfgExcept e then
      if env.path_exists ("configs/" ++ model ++ ".yaml") then
        .ok ("configs/" ++ model ++ ".yaml")
      else
        .error (.fileNotFoundError ("Could not find model config for " ++ model))
    else .error e

/-- Backbone dispatch (lines 98-105): `"DiT"` selects the `DiT` class,
`"UNetT"` selects `UNetT`, anything else raises a `ValueError` naming
the unknown backbone. -/
def select_model_cls (backbone : String) : Except PyError String :=
  if backbone = "DiT" then .ok "DiT"
  else if backbone = "UNetT" then .ok "UNetT"
  else .error (.valueError ("Unknown model backbone: " ++ backbone))

/-- Model of `str(Path(d) / f)` for the common POSIX cases (line 77): an
absolute second operand replaces the first, a `"."` or empty first
operand is dropped, and otherwise the two are joined with a single
separator. -/
def posixJoin (d f : String) : String :=
  if f.startsWith "/" then f
  else if d = "" ∨ d = "." then f
  else if d.endsWith "/" then d ++ f
  else d ++ "/" ++ f

/-- The output path `wave_path = output_dir / args.output_file`
(line 77). -/
def wave_path (a : Args) : String :=
  posixJoin a.output_dir a.output_file

/-- Everything one run of the script produces: the trace of external
operations, the final directory set, and either normal completion or
the uncaught exception that ended the run. -/
structure RunOut where
  trace : List Event
  fs : FS
  result : Except PyError Unit

/-- The argument tuple assembled for the `infer_process` call
(lines 123-137): the preprocessed reference audio and text, the raw
generation text, the vocoder name as `mel_spec_type`, the advanced
numeric parameters, and `fix_duration=None`. -/
def inferInput (a : Args) (ra rt : String) : InferIn :=
  ⟨ra, rt, a.gen_text, a.vocoder_name, a.target_rms,
   a.cross_fade_duration, a.nfe_step, a.cfg_strength,
   a.sway_sampling_coef, a.speed, none⟩

/-- Shallow embedding of `main()` (lines 46-149), given the external
environment, the current directory set, and the command line.  Each
stage is attempted in the source order; the first raised exception
propagates uncaught and ends the run (an argparse failure exits with
status 2). -/
def runMain (env : Env) (fs : FS) (argv : List CliToken) : RunOut :=
  match parseArgs argv with
  | .error _ => ⟨[], fs, .error (.systemExit 2)⟩
  | .ok a =>
    match path_mkdir fs a.output_dir true true with
    | .error e => ⟨[.argsParsed a], fs, .error e⟩
    | .ok fs2 =>
      match env.load_vocoder a.vocoder_name with
      | .error e =>
        ⟨[.argsParsed a, .mkdirOutput a.output_dir,
          .loadVocoderEvt a.vocoder_name], fs2, .error e⟩
      | .ok _ =>
        match resolve_model_cfg_path env a.model with
        | .error e =>
          ⟨[.argsParsed a, .mkdirOutput a.output_dir,
            .loadVocoderEvt a.vocoder_name], fs2, .error e⟩
        | .ok p =>
          match env.omegaconf_load p with
          | .error e =>
            ⟨[.argsParsed a, .mkdirOutput a.output_dir,
              .loadVocoderEvt a.vocoder_name, .resolveCfgEvt p,
              .loadCfgEvt p], fs2, .error e⟩
          | .ok cfg =>
            match select_model_cls cfg.backbone with
            | .error e =>
              ⟨[.argsParsed a, .mkdirOutput a.output_dir,
                .loadVocoderEvt a.vocoder_name, .resolveCfgEvt p,
                .loadCfgEvt p], fs2, .error e⟩
            | .ok cls =>
              match env.load_model cls cfg.arch a.ckpt_file a.vocoder_name
                  a.vocab_file with
              | .error e =>
                ⟨[.argsParsed a, .mkdirOutput a.output_dir,
                  .loadVocoderEvt a.vocoder_name, .resolveCfgEvt p,
                  .loadCfgEvt p,
                  .loadModelEvt cls cfg.arch a.ckpt_file a.vocoder_name
                    a.vocab_file], fs2, .error e⟩
              | .ok _ =>
                match env.preprocess_ref_audio_text a.ref_audio a.ref_text with
                | .error e =>
                  ⟨[.argsParsed a, .mkdirOutput a.output_dir,
                    .loadVocoderEvt a.vocoder_name, .resolveCfgEvt p,
                    .loadCfgEvt p,
                    .loadModelEvt cls cfg.arch a.ckpt_file a.vocoder_name
                      a.vocab_file,
                    .preprocessEvt a.ref_audio a.ref_text], fs2, .error e⟩
                | .ok (ra, rt) =>
                  let inp : InferIn := inferInput a ra rt
                  match env.infer_process inp with
                  | .error e =>
                    ⟨[.argsParsed a, .mkdirOutput a.output_dir,
                      .loadVocoderEvt a.vocoder_name, .resolveCfgEvt p,
                      .loadCfgEvt p,
                      .loadModelEvt cls cfg.arch a.ckpt_file a.vocoder_name
                        a.vocab_file,
                      .preprocessEvt a.ref_audio a.ref_text,
                      .inferEvt inp], fs2, .error e⟩
                  | .ok out =>
                    match env.sf_write (wave_path a) out.audio
                        out.sample_rate with
                    | .error e =>
                      ⟨[.argsParsed a, .mkdirOutput a.output_dir,
                        .loadVocoderEvt a.vocoder_name, .resolveCfgEvt p,
                        .loadCfgEvt p,
                        .loadModelEvt cls cfg.arch a.ckpt_file a.vocoder_name
                          a.vocab_file,
                        .preprocessEvt a.ref_audio a.ref_text,
                        .inferEvt inp,
                        .writeAudioEvt (wave_path a) out.audio
                          out.sample_rate], fs2, .error e⟩
                    | .ok _ =>
                      if a.remove_silence then
                        ⟨[.argsParsed a, .mkdirOutput a.output_dir,
                          .loadVocoderEvt a.vocoder_name, .resolveCfgEvt p,
                          .loadCfgEvt p,
                          .loadModelEvt cls cfg.arch a.ckpt_file
                            a.vocoder_name a.vocab_file,
                          .preprocessEvt a.ref_audio a.ref_text,
                          .inferEvt inp,
                          .writeAudioEvt (wave_path a) out.audio
                            out.sample_rate,
                          .removeSilenceEvt (wave_path a)], fs2,
                         env.remove_silence_for_generated_wav (wave_path a)⟩
                      else
                        ⟨[.argsParsed a, .mkdirOutput a.output_dir,
                          .loadVocoderEvt a.vocoder_name, .resolveCfgEvt p,
                          .loadCfgEvt p,
                          .loadModelEvt cls cfg.arch a.ckpt_file
                            a.vocoder_name a.vocab_file,
                          .preprocessEvt a.ref_audio a.ref_text,
                          .inferEvt inp,
                          .writeAudioEvt (wave_path a) out.audio
                            out.sample_rate], fs2, .ok ()⟩

/-! ## Trace observations -/

/-- Index of the first event satisfying `p`, if any. -/
def firstIdx (p : Event → Bool) : List Event → Option Nat
  | [] => none
  | e :: tr =>
    if p e then some 0 else Option.map (fun n => n + 1) (firstIdx p tr)

/-- Both kinds of event occur and the first `p`-event strictly comes
before the first `q`-event. -/
def precedes (p q : Event → Bool) (tr : List Event) : Bool :=
  match firstIdx p tr, firstIdx q tr with
  | some i, some j => decide (i < j)
  | _, _ => false

/-- Some event of the trace satisfies `p`. -/
def occurs (p : Event → Bool) (tr : List Event) : Bool := tr.any p

def isArgsParsed : Event → Bool
  | .argsParsed _ => true
  | _ => false

def isMkdir : Event → Bool
  | .mkdirOutput _ => true
  | _ => false

def isLoadVocoder : Event → Bool
  | .loadVocoderEvt _ => true
  | _ => false

def isResolveCfg : Event → Bool
  | .resolveCfgEvt _ => true
  | _ => false

def isLoadCfg : Event → Bool
  | .loadCfgEvt _ => true
  | _ => false

def isLoadModel : Event → Bool
  | .loadModelEvt _ _ _ _ _ => true
  | _ => false

def isPreprocess : Event → Bool
  | .preprocessEvt _ _ => true
  | _ => false

def isInfer : Event → Bool
  | .inferEvt _ => true
  | _ => false

def isWriteAudio : Event → Bool
  | .writeAudioEvt _ _ _ => true
  | _ => false

def isRemoveSilence : Event → Bool
  | .removeSilenceEvt _ => true
  | _ => false

/-- An event is consistent with the single vocoder name `v`: a vocoder
load uses `v`, and both the model load and the inference call pass `v`
as their `mel_spec_type`. -/
def melConsistent (v : String) : Event → Bool
  | .loadVocoderEvt n => decide (n = v)
  | .loadModelEvt _ _ _ mel _ => decide (mel = v)
  | .inferEvt inp => decide (inp.mel_spec_type = v)
  | _ => true

/-- The full event sequence of a successful run: parse, create the
output directory, load the vocoder, resolve the configuration path,
load the configuration, load the model, preprocess, infer, write the
audio, and remove silence exactly when the flag is set. -/
def canonTrace (a : Args) (p : String) (cfg : ModelCfg) (cls : String)
    (ra rt : String) (out : InferOut) : List Event :=
  [.argsParsed a, .mkdirOutput a.output_dir,
   .loadVocoderEvt a.vocoder_name, .resolveCfgEvt p, .loadCfgEvt p,
   .loadModelEvt cls cfg.arch a.ckpt_file a.vocoder_name a.vocab_file,
   .preprocessEvt a.ref_audio a.ref_text,
   .inferEvt (inferInput a ra rt),
   .writeAudioEvt (wave_path a) out.audio out.sample_rate] ++
  (if a.remove_silence then [.removeSilenceEvt (wave_path a)] else [])

/-- Modelled from the spec: the operation order section 2 claims, namely
parse, then resolve the model configuration path, then load the vocoder,
then load the model, then preprocess, then run inference, then write the
audio (post-processing optional). -/
def claimedOrder (tr : List Event) : Bool :=
  precedes isArgsParsed isResolveCfg tr &&
  precedes isResolveCfg isLoadVocoder tr &&
  precedes isLoadVocoder isLoadModel tr &&
  precedes isLoadModel isPreprocess tr &&
  precedes isPreprocess isInfer tr &&
  precedes isInfer isWriteAudio tr

/-! ## Concrete environments used to instantiate the theorems -/

/-- An environment in which every external call succeeds and the
`f5_tts` package is installed. -/
def okEnv : Env where
  load_vocoder := fun _ => .ok ()
  pkg_cfg_path := fun p => .ok ("/site-packages/f5_tts/" ++ p)
  path_exists := fun _ => false
  omegaconf_load := fun _ => .ok ⟨"DiT", "dim=1024"⟩
  load_model := fun _ _ _ _ _ => .ok ()
  preprocess_ref_audio_text := fun ra rt => .ok (ra, rt)
  infer_process := fun _ => .ok ⟨0, 24000, 0⟩
  sf_write := fun _ _ _ => .ok ()
  remove_silence_for_generated_wav := fun _ => .ok ()

/-- The empty current directory: nothing exists yet. -/
def emptyFS : FS := fun _ => false

/-- Like `okEnv`, but the loaded configuration names an unknown
backbone. -/
def badBackboneEnv : Env :=
  { okEnv with omegaconf_load := fun _ => .ok ⟨"Transformer", "dim=1024"⟩ }

/-- Like `okEnv`, but the `f5_tts` package is not importable and only
the current directory holds configuration files. -/
def noPkgEnv : Env :=
  { okEnv with
    pkg_cfg_path := fun _ => .error .importError
    path_exists := fun _ => true }

/-- Like `okEnv`, but neither the package nor the current directory has
any configuration file. -/
def noCfgEnv : Env :=
  { okEnv with pkg_cfg_path := fun _ => .error .importError }

/-! ## Which command-line token sets which argument field -/

def tokSetsModel : CliToken → Bool
  | .model _ => true
  | _ => false

def tokSetsVocoderName : CliToken → Bool
  | .vocoder_name _ => true
  | _ => false

def tokSetsSpeed : CliToken → Bool
  | .speed _ => true
  | _ => false

def tokSetsNfeStep : CliToken → Bool
  | .nfe_step _ => true
  | _ => false

def tokSetsCfgStrength : CliToken → Bool
  | .cfg_strength _ => true
  | _ => false

def tokSetsTargetRms : CliToken → Bool
  | .target_rms _ => true
  | _ => false

def tokSetsCrossFade : CliToken → Bool
  | .cross_fade_duration _ => true
  | _ => false

def tokSetsSway : CliToken → Bool
  | .sway_sampling_coef _ => true
  | _ => false

def tokSetsOutputDir : CliToken → Bool
  | .output_dir _ => true
  | _ => false

def tokSetsVocabFile : CliToken → Bool
  | .vocab_file _ => true
  | _ => false

def tokSetsCkptFile : CliToken → Bool
  | .ckpt_file _ => true
  | _ => false

def tokSetsRemoveSilence : CliToken → Bool
  | .remove_silence => true
  | _ => false

/-- The parsed arguments for the command line `[--remove_silence]`. -/
def rsArgs : Args := { defaultArgs with remove_silence := true }

/-! ## Basic lemmas about the embedding -/

/-- With `parents=True` and `exist_ok=True` the `mkdir` call never
raises, whatever already exists. -/
theorem path_mkdir_parents_exist_ok (fs : FS) (d : String) :
    path_mkdir fs d true true = .ok (mkdirFS fs d) := by
  simp [path_mkdir]

/-- Creating the same directory twice leaves the directory set of the
first creation unchanged. -/
theorem mkdirFS_idem (fs : FS) (d : String) :
    mkdirFS (mkdirFS fs d) d = mkdirFS fs d := by
  funext q
  unfold mkdirFS
  cases h : decide (q ∈ ancestors d) <;> simp [h]

/-- A successful run of `runMain` performs exactly the canonical event
sequence, ends normally unless the optional silence removal raises, and
has created the output directory. -/
theorem runMain_success (env : Env) (fs : FS) (argv : List CliToken)
    (a : Args) (p : String) (cfg : ModelCfg) (cls : String)
    (ra rt : String) (out : InferOut)
    (h1 : parseArgs argv = .ok a)
    (h2 : env.load_vocoder a.vocoder_name = .ok ())
    (h3 : resolve_model_cfg_path env a.model = .ok p)
    (h4 : env.omegaconf_load p = .ok cfg)
    (h5 : select_model_cls cfg.backbone = .ok cls)
    (h6 : env.load_model cls cfg.arch a.ckpt_file a.vocoder_name
            a.vocab_file = .ok ())
    (h7 : env.preprocess_ref_audio_text a.ref_audio a.ref_text =
            .ok (ra, rt))
    (h8 : env.infer_process (inferInput a ra rt) = .ok out)
    (h9 : env.sf_write (wave_path a) out.audio out.sample_rate = .ok ()) :
    runMain env fs argv =
      ⟨canonTrace a p cfg cls ra rt out, mkdirFS fs a.output_dir,
       if a.remove_silence then
         env.remove_silence_for_generated_wav (wave_path a)
       else .ok ()⟩ := by
  unfold runMain
  simp only [h1, path_mkdir_parents_exist_ok, h2, h3, h4, h5, h6, h7, h8,
    h9]
  cases hrs : a.remove_silence <;> simp [canonTrace, hrs]

/-- If no token of the command line sets a field (in the sense of `f`),
then parsing preserves that field (read through `proj`). -/
theorem parseTokens_preserves {α : Type} (proj : Args → α)
    (f : CliToken → Bool)
    (hcompat : ∀ (x : Args) (t : CliToken) (y : Args),
      f t = false → applyTok x t = .ok y → proj y = proj x) :
    ∀ (argv : List CliToken) (a b : Args), argv.any f = false →
      parseTokens a argv = .ok b → proj b = proj a := by
  intro argv
  induction argv with
  | nil =>
    intro a b _ hp
    simp only [parseTokens] at hp
    cases hp
    rfl
  | cons t ts ih =>
    intro a b hany hp
    simp only [List.any_cons, Bool.or_eq_false_iff] at hany
    unfold parseTokens at hp
    cases hc : applyTok a t with
    | error e => rw [hc] at hp; cases hp
    | ok a2 =>
      rw [hc] at hp
      rw [ih a2 b hany.2 hp, hcompat a t a2 hany.1 hc]

theorem applyTok_model_eq (x : Args) (t : CliToken) (y : Args)
    (hf : tokSetsModel t = false) (happ : applyTok x t = .ok y) :
    y.model = x.model := by
  cases t <;> simp only [applyTok] at happ <;> (try split at happ) <;>
    (try cases happ) <;> simp_all [tokSetsModel]

theorem applyTok_vocoder_eq (x : Args) (t : CliToken) (y : Args)
    (hf : tokSetsVocoderName t = false) (happ : applyTok x t = .ok y) :
    y.vocoder_name = x.vocoder_name := by
  cases t <;> simp only [applyTok] at happ <;> (try split at happ) <;>
    (try cases happ) <;> simp_all [tokSetsVocoderName]

theorem applyTok_speed_eq (x : Args) (t : CliToken) (y : Args)
    (hf : tokSetsSpeed t = false) (happ : applyTok x t = .ok y) :
    y.speed = x.speed := by
  cases t <;> simp only [applyTok] at happ <;> (try split at happ) <;>
    (try cases happ) <;> simp_all [tokSetsSpeed]

theorem applyTok_nfe_eq (x : Args) (t : CliToken) (y : Args)
    (hf : tokSetsNfeStep t = false) (happ : applyTok x t = .ok y) :
    y.nfe_step = x.nfe_step := by
  cases t <;> simp only [applyTok] at happ <;> (try split at happ) <;>
    (try cases happ) <;> simp_all [tokSetsNfeStep]

theorem applyTok_cfg_eq (x : Args) (t : CliToken) (y : Args)
    (hf : tokSetsCfgStrength t = false) (happ : applyTok x t = .ok y) :
    y.cfg_strength = x.cfg_strength := by
  cases t <;> simp only [applyTok] at happ <;> (try split at happ) <;>
    (try cases happ) <;> simp_all [tokSetsCfgStrength]

theorem applyTok_rms_eq (x : Args) (t : CliToken) (y : Args)
    (hf : tokSetsTargetRms t = false) (happ : applyTok x t = .ok y) :
    y.target_rms = x.target_rms := by
  cases t <;> simp only [applyTok] at happ <;> (try split at happ) <;>
    (try cases happ) <;> simp_all [tokSetsTargetRms]

theorem applyTok_crossfade_eq (x : Args) (t : CliToken) (y : Args)
    (hf : tokSetsCrossFade t = false) (happ : applyTok x t = .ok y) :
    y.cross_fade_duration = x.cross_fade_duration := by
  cases t <;> simp only [applyTok] at happ <;> (try split at happ) <;>
    (try cases happ) <;> simp_all [tokSetsCrossFade]

theorem applyTok_sway_eq (x : Args) (t : CliToken) (y : Args)
    (hf : tokSetsSway t = false) (happ : applyTok x t = .ok y) :
    y.sway_sampling_coef = x.sway_sampling_coef := by
  cases t <;> simp only [applyTok] at happ <;> (try split at happ) <;>
    (try cases happ) <;> simp_all [tokSetsSway]

theorem applyTok_outdir_eq (x : Args) (t : CliToken) (y : Args)
    (hf : tokSetsOutputDir t = false) (happ : applyTok x t = .ok y) :
    y.output_dir = x.output_dir := by
  cases t <;> simp only [applyTok] at happ <;> (try split at happ) <;>
    (try cases happ) <;> simp_all [tokSetsOutputDir]

theorem applyTok_vocab_eq (x : Args) (t : CliToken) (y : Args)
    (hf : tokSetsVocabFile t = false) (happ : applyTok x t = .ok y) :
    y.vocab_file = x.vocab_file := by
  cases t <;> simp only [applyTok] at happ <;> (try split at happ) <;>
    (try cases happ) <;> simp_all [tokSetsVocabFile]

theorem applyTok_ckpt_eq (x : Args) (t : CliToken) (y : Args)
    (hf : tokSetsCkptFile t = false) (happ : applyTok x t = .ok y) :
    y.ckpt_file = x.ckpt_file := by
  cases t <;> simp only [applyTok] at happ <;> (try split at happ) <;>
    (try cases happ) <;> simp_all [tokSetsCkptFile]

theorem applyTok_rmsil_eq (x : Args) (t : CliToken) (y : Args)
    (hf : tokSetsRemoveSilence t = false) (happ : applyTok x t = .ok y) :
    y.remove_silence = x.remove_silence := by
  cases t <;> simp only [applyTok] at happ <;> (try split at happ) <;>
    (try cases happ) <;> simp_all [tokSetsRemoveSilence]

/-- No token ever clears the `store_true` flag: once set, it stays
set. -/
theorem applyTok_rmsil_mono (x : Args) (t : CliToken) (y : Args)
    (happ : applyTok x t = .ok y) (hx : x.remove_silence = true) :
    y.remove_silence = true := by
  cases t <;> simp only [applyTok] at happ <;> (try split at happ) <;>
    (try cases happ) <;> simp_all

/-- Parsing preserves an already-set `remove_silence` flag. -/
theorem parseTokens_rmsil_mono :
    ∀ (argv : List CliToken) (a b : Args), parseTokens a argv = .ok b →
      a.remove_silence = true → b.remove_silence = true := by
  intro argv
  induction argv with
  | nil =>
    intro a b hp hx
    simp only [parseTokens] at hp
    cases hp
    exact hx
  | cons t ts ih =>
    intro a b hp hx
    unfold parseTokens at hp
    cases hc : applyTok a t with
    | error e => rw [hc] at hp; cases hp
    | ok a2 =>
      rw [hc] at hp
      exact ih a2 b hp (applyTok_rmsil_mono a t a2 hc hx)

/-- A `--remove_silence` occurrence anywhere on the command line sets the
flag in the parsed arguments. -/
theorem parseTokens_rmsil_of_mem :
    ∀ (argv : List CliToken) (a b : Args), CliToken.remove_silence ∈ argv →
      parseTokens a argv = .ok b → b.remove_silence = true := by
  intro argv
  induction argv with
  | nil => intro a b hm; cases hm
  | cons t ts ih =>
    intro a b hm hp
    unfold parseTokens at hp
    rcases List.mem_cons.mp hm with heq | hmem
    · subst heq
      simp only [applyTok] at hp
      exact parseTokens_rmsil_mono ts _ b hp rfl
    · cases hc : applyTok a t with
      | error e => rw [hc] at hp; cases hp
      | ok a2 =>
        rw [hc] at hp
        exact ih a2 b hmem hp

/-- A `--vocoder_name` occurrence with a value outside the `choices`
list makes the whole parse fail, whatever else is on the command
line. -/
theorem parseTokens_badVocoder (v : String) (h1 : v ≠ "vocos")
    (h2 : v ≠ "bigvgan") :
    ∀ (argv : List CliToken) (a : Args), CliToken.vocoder_name v ∈ argv →
      ∃ e, parseTokens a argv = .error e := by
  intro argv
  induction argv with
  | nil => intro a hm; cases hm
  | cons t ts ih =>
    intro a hm
    rcases List.mem_cons.mp hm with heq | hmem
    · subst heq
      exact ⟨.invalidChoice "--vocoder_name" v,
        by simp [parseTokens, applyTok, h1, h2]⟩
    · cases hc : applyTok a t with
      | error e => exact ⟨e, by simp [parseTokens, hc]⟩
      | ok a2 =>
        obtain ⟨e, he⟩ := ih a2 hmem
        exact ⟨e, by simp [parseTokens, hc, he]⟩

/-! ## Claim theorems -/

/-- Claim C1 (amended): in every run in which each stage succeeds, the
operations occur in exactly the source's fixed sequence: the CLI
arguments are parsed, the output directory is created, the vocoder is
loaded, then the model configuration path is resolved, the configuration
is loaded, the model is loaded, the reference audio and text are
preprocessed, inference runs, the audio is written, and post-processing
optionally runs.  (The vocoder load precedes the configuration path
resolution, not the other way round as the spec's sequence has it.) -/
theorem runMain_event_order (env : Env) (fs : FS) (argv : List CliToken)
    (a : Args) (p : String) (cfg : ModelCfg) (cls : String)
    (ra rt : String) (out : InferOut)
    (h1 : parseArgs argv = .ok a)
    (h2 : env.load_vocoder a.vocoder_name = .ok ())
    (h3 : resolve_model_cfg_path env a.model = .ok p)
    (h4 : env.omegaconf_load p = .ok cfg)
    (h5 : select_model_cls cfg.backbone = .ok cls)
    (h6 : env.load_model cls cfg.arch a.ckpt_file a.vocoder_name
            a.vocab_file = .ok ())
    (h7 : env.preprocess_ref_audio_text a.ref_audio a.ref_text =
            .ok (ra, rt))
    (h8 : env.infer_process (inferInput a ra rt) = .ok out)
    (h9 : env.sf_write (wave_path a) out.audio out.sample_rate = .ok ()) :
    (runMain env fs argv).trace = canonTrace a p cfg cls ra rt out := by
  rw [runMain_success env fs argv a p cfg cls ra rt out h1 h2 h3 h4 h5 h6
    h7 h8 h9]

/-- Witness for claim C1's amended theorem at a concrete successful
run. -/
theorem runMain_event_order_witness :
    (runMain okEnv emptyFS []).trace =
      canonTrace defaultArgs "/site-packages/f5_tts/configs/F5TTS_Base.yaml"
        ⟨"DiT", "dim=1024"⟩ "DiT" REF_AUDIO REF_TEXT ⟨0, 24000, 0⟩ :=
  runMain_event_order okEnv emptyFS [] defaultArgs
    "/site-packages/f5_tts/configs/F5TTS_Base.yaml" ⟨"DiT", "dim=1024"⟩
    "DiT" REF_AUDIO REF_TEXT ⟨0, 24000, 0⟩ rfl rfl rfl rfl rfl rfl rfl rfl
    rfl

/-- Claim C1 as stated is false: in a concrete successful run the
vocoder is loaded strictly before the model configuration path is
resolved, so the spec's claimed operation order does not hold of the
trace. -/
theorem runMain_spec_order_fails :
    (runMain okEnv emptyFS []).result = .ok () ∧
    precedes isLoadVocoder isResolveCfg (runMain okEnv emptyFS []).trace =
      true ∧
    claimedOrder (runMain okEnv emptyFS []).trace = false := by
  refine ⟨rfl, rfl, rfl⟩

/-- Claim C2: a successful run writes the audio to the join of the
`--output_dir` and `--output_file` values with the sample rate the
inference call returned, and the output path is a function of those two
arguments alone. -/
theorem runMain_write_path (env : Env) (fs : FS) (argv : List CliToken)
    (a : Args) (p : String) (cfg : ModelCfg) (cls : String)
    (ra rt : String) (out : InferOut)
    (h1 : parseArgs argv = .ok a)
    (h2 : env.load_vocoder a.vocoder_name = .ok ())
    (h3 : resolve_model_cfg_path env a.model = .ok p)
    (h4 : env.omegaconf_load p = .ok cfg)
    (h5 : select_model_cls cfg.backbone = .ok cls)
    (h6 : env.load_model cls cfg.arch a.ckpt_file a.vocoder_name
            a.vocab_file = .ok ())
    (h7 : env.preprocess_ref_audio_text a.ref_audio a.ref_text =
            .ok (ra, rt))
    (h8 : env.infer_process (inferInput a ra rt) = .ok out)
    (h9 : env.sf_write (wave_path a) out.audio out.sample_rate = .ok ()) :
    Event.writeAudioEvt (posixJoin a.output_dir a.output_file) out.audio
        out.sample_rate ∈ (runMain env fs argv).trace ∧
    (∀ b : Args, b.output_dir = a.output_dir →
      b.output_file = a.output_file → wave_path b = wave_path a) := by
  constructor
  · rw [runMain_success env fs argv a p cfg cls ra rt out h1 h2 h3 h4 h5
      h6 h7 h8 h9]
    cases hrs : a.remove_silence <;> simp [canonTrace, wave_path, hrs]
  · intro b hb1 hb2
    simp [wave_path, hb1, hb2]

/-- Witness for claim C2 at a concrete successful run. -/
theorem runMain_write_path_witness :
    Event.writeAudioEvt
        (posixJoin defaultArgs.output_dir defaultArgs.output_file) 0
        24000 ∈ (runMain okEnv emptyFS []).trace :=
  (runMain_write_path okEnv emptyFS [] defaultArgs
    "/site-packages/f5_tts/configs/F5TTS_Base.yaml" ⟨"DiT", "dim=1024"⟩
    "DiT" REF_AUDIO REF_TEXT ⟨0, 24000, 0⟩ rfl rfl rfl rfl rfl rfl rfl rfl
    rfl).1

/-- Claim C3: a loaded configuration whose backbone is neither `"DiT"`
nor `"UNetT"` makes the run end with an uncaught `ValueError` naming the
unknown backbone, with no recovery: no model load, inference or write
ever happens; backbone `"DiT"` selects the `DiT` class and `"UNetT"`
selects `UNetT`. -/
theorem backbone_dispatch :
    (∀ b : String, b ≠ "DiT" → b ≠ "UNetT" →
      select_model_cls b =
        .error (.valueError ("Unknown model backbone: " ++ b))) ∧
    select_model_cls "DiT" = .ok "DiT" ∧
    select_model_cls "UNetT" = .ok "UNetT" ∧
    (∀ (env : Env) (fs : FS) (argv : List CliToken) (a : Args)
       (p : String) (cfg : ModelCfg),
      parseArgs argv = .ok a →
      env.load_vocoder a.vocoder_name = .ok () →
      resolve_model_cfg_path env a.model = .ok p →
      env.omegaconf_load p = .ok cfg →
      cfg.backbone ≠ "DiT" → cfg.backbone ≠ "UNetT" →
      (runMain env fs argv).result =
        .error (.valueError ("Unknown model backbone: " ++ cfg.backbone)) ∧
      occurs isLoadModel (runMain env fs argv).trace = false ∧
      occurs isInfer (runMain env fs argv).trace = false ∧
      occurs isWriteAudio (runMain env fs argv).trace = false) := by
  refine ⟨?_, rfl, rfl, ?_⟩
  · intro b hb1 hb2
    simp [select_model_cls, hb1, hb2]
  · intro env fs argv a p cfg h1 h2 h3 h4 hb1 hb2
    have hsel : select_model_cls cfg.backbone =
        .error (.valueError ("Unknown model backbone: " ++ cfg.backbone)) := by
      simp [select_model_cls, hb1, hb2]
    unfold runMain
    simp only [h1, path_mkdir_parents_exist_ok, h2, h3, h4, hsel]
    simp [occurs, isLoadModel, isInfer, isWriteAudio]

/-- Witness for claim C3: a concrete run whose configuration names the
backbone `"Transformer"` ends with the `ValueError`. -/
theorem backbone_dispatch_witness :
    (runMain badBackboneEnv emptyFS []).result =
      .error (.valueError ("Unknown model backbone: " ++ "Transformer")) ∧
    occurs isLoadModel (runMain badBackboneEnv emptyFS []).trace = false :=
  ⟨(backbone_dispatch.2.2.2 badBackboneEnv emptyFS [] defaultArgs
      "/site-packages/f5_tts/configs/F5TTS_Base.yaml"
      ⟨"Transformer", "dim=1024"⟩ rfl rfl rfl rfl (by decide)
      (by decide)).1,
   (backbone_dispatch.2.2.2 badBackboneEnv emptyFS [] defaultArgs
      "/site-packages/f5_tts/configs/F5TTS_Base.yaml"
      ⟨"Transformer", "dim=1024"⟩ rfl rfl rfl rfl (by decide)
      (by decide)).2.1⟩

/-- Claim C4: the model configuration path is resolved by consulting the
installed `f5_tts` package first; on `ImportError` or
`FileNotFoundError` the script falls back to `configs/<model>.yaml` in
the current directory, and when that is missing too it raises an
uncaught `FileNotFoundError` naming the model. -/
theorem resolve_cfg_cases (env : Env) (model : String) :
    (∀ p : String,
      env.pkg_cfg_path ("configs/" ++ model ++ ".yaml") = .ok p →
      resolve_model_cfg_path env model = .ok p) ∧
    (∀ e : PyError,
      env.pkg_cfg_path ("configs/" ++ model ++ ".yaml") = .error e →
      caughtByCfgExcept e = true →
      env.path_exists ("configs/" ++ model ++ ".yaml") = true →
      resolve_model_cfg_path env model =
        .ok ("configs/" ++ model ++ ".yaml")) ∧
    (∀ e : PyError,
      env.pkg_cfg_path ("configs/" ++ model ++ ".yaml") = .error e →
      caughtByCfgExcept e = true →
      env.path_exists ("configs/" ++ model ++ ".yaml") = false →
      resolve_model_cfg_path env model =
        .error (.fileNotFoundError
          ("Could not find model config for " ++ model))) := by
  refine ⟨?_, ?_, ?_⟩
  · intro p hp
    simp [resolve_model_cfg_path, hp]
  · intro e he hc hex
    simp [resolve_model_cfg_path, he, hc, hex]
  · intro e he hc hex
    simp [resolve_model_cfg_path, he, hc, hex]

/-- Witness for claim C4: the three resolution outcomes at concrete
environments. -/
theorem resolve_cfg_cases_witness :
    resolve_model_cfg_path okEnv "F5TTS_Base" =
      .ok "/site-packages/f5_tts/configs/F5TTS_Base.yaml" ∧
    resolve_model_cfg_path noPkgEnv "F5TTS_Base" =
      .ok "configs/F5TTS_Base.yaml" ∧
    resolve_model_cfg_path noCfgEnv "F5TTS_Base" =
      .error (.fileNotFoundError
        ("Could not find model config for " ++ "F5TTS_Base")) :=
  ⟨(resolve_cfg_cases okEnv "F5TTS_Base").1
      "/site-packages/f5_tts/configs/F5TTS_Base.yaml" rfl,
   (resolve_cfg_cases noPkgEnv "F5TTS_Base").2.1 .importError rfl rfl rfl,
   (resolve_cfg_cases noCfgEnv "F5TTS_Base").2.2 .importError rfl rfl rfl⟩

/-- Claim C5: a `--vocoder_name` value other than `"vocos"` or
`"bigvgan"` anywhere on the command line is rejected at parse time: the
whole parse fails, the run performs no external operation at all, and
the script exits with status 2 before any model or vocoder is
loaded. -/
theorem vocoder_choice_rejected (argv : List CliToken) (v : String)
    (hmem : CliToken.vocoder_name v ∈ argv)
    (h1 : v ≠ "vocos") (h2 : v ≠ "bigvgan") (env : Env) (fs : FS) :
    (∃ e, parseArgs argv = .error e) ∧
    (runMain env fs argv).trace = [] ∧
    (runMain env fs argv).result = .error (.systemExit 2) := by
  obtain ⟨e, he⟩ := parseTokens_badVocoder v h1 h2 argv defaultArgs hmem
  have hpe : parseArgs argv = .error e := he
  refine ⟨⟨e, hpe⟩, ?_, ?_⟩ <;> simp [runMain, hpe]

/-- Witness for claim C5 at the concrete value `"melgan"`. -/
theorem vocoder_choice_rejected_witness :
    (runMain okEnv emptyFS [CliToken.vocoder_name "melgan"]).trace = [] ∧
    (runMain okEnv emptyFS [CliToken.vocoder_name "melgan"]).result =
      .error (.systemExit 2) :=
  ⟨(vocoder_choice_rejected [CliToken.vocoder_name "melgan"] "melgan"
      (by simp) (by decide) (by decide) okEnv emptyFS).2.1,
   (vocoder_choice_rejected [CliToken.vocoder_name "melgan"] "melgan"
      (by simp) (by decide) (by decide) okEnv emptyFS).2.2⟩

/-- Claim C6: `--remove_silence` is a boolean flag defaulting to false
and set exactly by passing the flag; in a successful run silence removal
happens if and only if the flag is set, and when it happens it comes
strictly after the audio has been written. -/
theorem remove_silence_spec (env : Env) (fs : FS) (argv : List CliToken)
    (a : Args) (p : String) (cfg : ModelCfg) (cls : String)
    (ra rt : String) (out : InferOut)
    (h1 : parseArgs argv = .ok a)
    (h2 : env.load_vocoder a.vocoder_name = .ok ())
    (h3 : resolve_model_cfg_path env a.model = .ok p)
    (h4 : env.omegaconf_load p = .ok cfg)
    (h5 : select_model_cls cfg.backbone = .ok cls)
    (h6 : env.load_model cls cfg.arch a.ckpt_file a.vocoder_name
            a.vocab_file = .ok ())
    (h7 : env.preprocess_ref_audio_text a.ref_audio a.ref_text =
            .ok (ra, rt))
    (h8 : env.infer_process (inferInput a ra rt) = .ok out)
    (h9 : env.sf_write (wave_path a) out.audio out.sample_rate = .ok ()) :
    defaultArgs.remove_silence = false ∧
    (argv.any tokSetsRemoveSilence = false → a.remove_silence = false) ∧
    (CliToken.remove_silence ∈ argv → a.remove_silence = true) ∧
    occurs isRemoveSilence (runMain env fs argv).trace =
      a.remove_silence ∧
    (a.remove_silence = true →
      precedes isWriteAudio isRemoveSilence (runMain env fs argv).trace =
        true) := by
  refine ⟨rfl, ?_, ?_, ?_, ?_⟩
  · intro hf
    exact (parseTokens_preserves (fun x => x.remove_silence)
      tokSetsRemoveSilence applyTok_rmsil_eq argv defaultArgs a hf
      h1).trans rfl
  · intro hm
    exact parseTokens_rmsil_of_mem argv defaultArgs a hm h1
  · rw [runMain_success env fs argv a p cfg cls ra rt out h1 h2 h3 h4 h5
      h6 h7 h8 h9]
    cases hrs : a.remove_silence <;>
      simp [canonTrace, occurs, isRemoveSilence, hrs]
  · intro hrs
    rw [runMain_success env fs argv a p cfg cls ra rt out h1 h2 h3 h4 h5
      h6 h7 h8 h9]
    simp [canonTrace, hrs, precedes, firstIdx, isWriteAudio,
      isRemoveSilence]

/-- Witness for claim C6 at a concrete run with the flag passed. -/
theorem remove_silence_spec_witness :
    occurs isRemoveSilence
        (runMain okEnv emptyFS [CliToken.remove_silence]).trace =
      rsArgs.remove_silence ∧
    precedes isWriteAudio isRemoveSilence
        (runMain okEnv emptyFS [CliToken.remove_silence]).trace = true :=
  ⟨(remove_silence_spec okEnv emptyFS [CliToken.remove_silence] rsArgs
      "/site-packages/f5_tts/configs/F5TTS_Base.yaml" ⟨"DiT", "dim=1024"⟩
      "DiT" REF_AUDIO REF_TEXT ⟨0, 24000, 0⟩ rfl rfl rfl rfl rfl rfl rfl
      rfl rfl).2.2.2.1,
   (remove_silence_spec okEnv emptyFS [CliToken.remove_silence] rsArgs
      "/site-packages/f5_tts/configs/F5TTS_Base.yaml" ⟨"DiT", "dim=1024"⟩
      "DiT" REF_AUDIO REF_TEXT ⟨0, 24000, 0⟩ rfl rfl rfl rfl rfl rfl rfl
      rfl rfl).2.2.2.2 rfl⟩

/-- Claim C7: whenever a flag is omitted from the command line, the
parsed arguments carry the module-level default for that flag: model
`"F5TTS_Base"`, vocoder `"vocos"`, speed 1.0, 32 NFE steps, CFG strength
2.0, target RMS 0.1, cross-fade 0.15 s, sway sampling coefficient -1.0,
output directory `"outputs"`, vocabulary `"model/vocab.txt"` and
checkpoint `"model/model_500000.pt"`. -/
theorem parse_defaults (argv : List CliToken) (a : Args)
    (h : parseArgs argv = .ok a) :
    (argv.any tokSetsModel = false → a.model = "F5TTS_Base") ∧
    (argv.any tokSetsVocoderName = false → a.vocoder_name = "vocos") ∧
    (argv.any tokSetsSpeed = false → a.speed = 1.0) ∧
    (argv.any tokSetsNfeStep = false → a.nfe_step = 32) ∧
    (argv.any tokSetsCfgStrength = false → a.cfg_strength = 2.0) ∧
    (argv.any tokSetsTargetRms = false → a.target_rms = 0.1) ∧
    (argv.any tokSetsCrossFade = false → a.cross_fade_duration = 0.15) ∧
    (argv.any tokSetsSway = false → a.sway_sampling_coef = -1.0) ∧
    (argv.any tokSetsOutputDir = false → a.output_dir = "outputs") ∧
    (argv.any tokSetsVocabFile = false → a.vocab_file = "model/vocab.txt") ∧
    (argv.any tokSetsCkptFile = false →
      a.ckpt_file = "model/model_500000.pt") := by
  refine ⟨fun hf => ?_, fun hf => ?_, fun hf => ?_, fun hf => ?_,
    fun hf => ?_, fun hf => ?_, fun hf => ?_, fun hf => ?_, fun hf => ?_,
    fun hf => ?_, fun hf => ?_⟩
  · exact (parseTokens_preserves (fun x => x.model) tokSetsModel
      applyTok_model_eq argv defaultArgs a hf h).trans rfl
  · exact (parseTokens_preserves (fun x => x.vocoder_name)
      tokSetsVocoderName applyTok_vocoder_eq argv defaultArgs a hf
      h).trans rfl
  · exact (parseTokens_preserves (fun x => x.speed) tokSetsSpeed
      applyTok_speed_eq argv defaultArgs a hf h).trans rfl
  · exact (parseTokens_preserves (fun x => x.nfe_step) tokSetsNfeStep
      applyTok_nfe_eq argv defaultArgs a hf h).trans rfl
  · exact (parseTokens_preserves (fun x => x.cfg_strength)
      tokSetsCfgStrength applyTok_cfg_eq argv defaultArgs a hf h).trans
      rfl
  · exact (parseTokens_preserves (fun x => x.target_rms) tokSetsTargetRms
      applyTok_rms_eq argv defaultArgs a hf h).trans rfl
  · exact (parseTokens_preserves (fun x => x.cross_fade_duration)
      tokSetsCrossFade applyTok_crossfade_eq argv defaultArgs a hf
      h).trans rfl
  · exact (parseTokens_preserves (fun x => x.sway_sampling_coef)
      tokSetsSway applyTok_sway_eq argv defaultArgs a hf h).trans rfl
  · exact (parseTokens_preserves (fun x => x.output_dir) tokSetsOutputDir
      applyTok_outdir_eq argv defaultArgs a hf h).trans rfl
  · exact (parseTokens_preserves (fun x => x.vocab_file) tokSetsVocabFile
      applyTok_vocab_eq argv defaultArgs a hf h).trans rfl
  · exact (parseTokens_preserves (fun x => x.ckpt_file) tokSetsCkptFile
      applyTok_ckpt_eq argv defaultArgs a hf h).trans rfl

/-- Witness for claim C7 at the empty command line. -/
theorem parse_defaults_witness :
    defaultArgs.model = "F5TTS_Base" ∧ defaultArgs.vocoder_name = "vocos" ∧
    defaultArgs.speed = 1.0 ∧ defaultArgs.nfe_step = 32 ∧
    defaultArgs.cfg_strength = 2.0 ∧ defaultArgs.target_rms = 0.1 ∧
    defaultArgs.cross_fade_duration = 0.15 ∧
    defaultArgs.sway_sampling_coef = -1.0 ∧
    defaultArgs.output_dir = "outputs" ∧
    defaultArgs.vocab_file = "model/vocab.txt" ∧
    defaultArgs.ckpt_file = "model/model_500000.pt" := by
  have h := parse_defaults [] defaultArgs rfl
  exact ⟨h.1 rfl, h.2.1 rfl, h.2.2.1 rfl, h.2.2.2.1 rfl, h.2.2.2.2.1 rfl,
    h.2.2.2.2.2.1 rfl, h.2.2.2.2.2.2.1 rfl, h.2.2.2.2.2.2.2.1 rfl,
    h.2.2.2.2.2.2.2.2.1 rfl, h.2.2.2.2.2.2.2.2.2.1 rfl,
    h.2.2.2.2.2.2.2.2.2.2 rfl⟩

/-- Claim C9: every run creates the output directory (with any missing
ancestors) before loading the vocoder or the model; with `parents=True`
and `exist_ok=True` the creation never raises, whatever already exists,
and creating the directory twice equals creating it once. -/
theorem mkdir_before_load :
    (∀ (env : Env) (fs : FS) (argv : List CliToken),
      (occurs isLoadVocoder (runMain env fs argv).trace = true →
        precedes isMkdir isLoadVocoder (runMain env fs argv).trace =
          true) ∧
      (occurs isLoadModel (runMain env fs argv).trace = true →
        precedes isMkdir isLoadModel (runMain env fs argv).trace =
          true)) ∧
    (∀ (fs : FS) (d q : String), q ∈ ancestors d →
      mkdirFS fs d q = true) ∧
    (∀ (fs : FS) (d : String),
      path_mkdir fs d true true = .ok (mkdirFS fs d)) ∧
    (∀ (fs : FS) (d : String),
      mkdirFS (mkdirFS fs d) d = mkdirFS fs d) := by
  refine ⟨?_, ?_, path_mkdir_parents_exist_ok, mkdirFS_idem⟩
  · intro env fs argv
    unfold runMain
    simp only [path_mkdir_parents_exist_ok]
    repeat' split
    all_goals constructor
    all_goals intro hocc
    all_goals
      simp_all [occurs, precedes, firstIdx, isMkdir, isLoadVocoder,
        isLoadModel]
  · intro fs d q hq
    simp [mkdirFS, hq]

/-- Witness for claim C9 at a concrete run and directory. -/
theorem mkdir_before_load_witness :
    precedes isMkdir isLoadVocoder (runMain okEnv emptyFS []).trace =
      true ∧
    mkdirFS emptyFS "outputs" "outputs" = true ∧
    mkdirFS (mkdirFS emptyFS "outputs") "outputs" =
      mkdirFS emptyFS "outputs" :=
  ⟨(mkdir_before_load.1 okEnv emptyFS []).1 rfl,
   mkdir_before_load.2.1 emptyFS "outputs" "outputs" (by decide),
   mkdir_before_load.2.2.2 emptyFS "outputs"⟩

/-- Claim C10: in every run, whatever its outcome, each vocoder load
uses the parsed `--vocoder_name` value, and each model load and each
inference call passes that same value as its `mel_spec_type`; the
vocoder and the mel-spectrogram type can never disagree. -/
theorem mel_spec_type_consistent (env : Env) (fs : FS)
    (argv : List CliToken) (a : Args) (h : parseArgs argv = .ok a) :
    (runMain env fs argv).trace.all (melConsistent a.vocoder_name) =
      true := by
  unfold runMain
  simp only [h, path_mkdir_parents_exist_ok]
  repeat' split
  all_goals simp_all [melConsistent, inferInput]

/-- Witness for claim C10 at a concrete successful run. -/
theorem mel_spec_type_consistent_witness :
    (runMain okEnv emptyFS []).trace.all
        (melConsistent defaultArgs.vocoder_name) = true :=
  mel_spec_type_consistent okEnv emptyFS [] defaultArgs rfl
